import Mathlib

/-!
Shallow embedding of the search/indexing subsystem of the educational
platform (src/search_service.py and its call sites in src/main.py).

Documents are modelled as association lists from field name to raw text,
mirroring the dynamic keyword-argument dictionaries that `_index_item`
builds (`document_data = {unique_field_name: ...}; document_data.update(fields)`).
An index is a list of documents; the whoosh index engine itself (tokenizer,
query parser, searcher) is modelled by executable Lean functions that follow
the library contract the source relies on: `StandardAnalyzer` lowercases and
splits on non-alphanumeric characters, `update_document` replaces any
existing document with the same unique-field value, `delete_by_term` removes
all documents with the given term, parsing can fail with `QueryParserError`
on malformed syntax (e.g. unbalanced quotes), and `QueryParser.escape`
neutralises special syntax so the escaped string always parses.
-/

namespace EduSearch

/-- A whoosh document: a field-name/value association list, as built by the
dynamic `document_data` dictionary in `_index_item`. -/
abbrev Document := List (String × String)

/-- Look up a stored field, defaulting to the empty string (missing fields
never null-propagate). -/
def getField (d : Document) (f : String) : String :=
  match d.find? (fun p => p.fst == f) with
  | some p => p.snd
  | none => ""

/-- `hit.get(field, default)` on a stored-fields dictionary. -/
def getFieldD (d : Document) (f dflt : String) : String :=
  match d.find? (fun p => p.fst == f) with
  | some p => p.snd
  | none => dflt

/-- Python `dict` insertion semantics: a later key overrides an earlier one. -/
def dictInsert (d : Document) (kv : String × String) : Document :=
  d.filter (fun p => p.fst ≠ kv.fst) ++ [kv]

/-- The document dictionary built by `_index_item`:
`{unique_field_name: unique_field_value}` updated with the other fields. -/
def buildDoc (uniqueField uniqueVal : String) (fields : List (String × String)) : Document :=
  fields.foldl dictInsert [(uniqueField, uniqueVal)]

/-- Character-level worker for `tokenize`: walk the text, lowercasing and
accumulating alphanumeric runs, emitting a token at every boundary. -/
def tokAux : List Char → List Char → List String
  | [], acc => if acc.isEmpty then [] else [String.mk acc.reverse]
  | c :: cs, acc =>
    if c.isAlphanum then tokAux cs (c.toLower :: acc)
    else if acc.isEmpty then tokAux cs []
    else String.mk acc.reverse :: tokAux cs []

/-- `StandardAnalyzer`: lowercase and split on non-alphanumeric characters,
dropping empty tokens. -/
def tokenize (s : String) : List String :=
  tokAux s.data []

/-- `str.lower()`. -/
def lowerStr (s : String) : String :=
  String.mk (s.data.map Char.toLower)

/-- The whoosh boolean query tree (`Term`, `And`, `Or`, plus the falsy
`NullQuery` the parser produces for token-free input). -/
inductive Query where
  | qterm : String → String → Query
  | qand : Query → Query → Query
  | qor : Query → Query → Query
  | qnull : Query
deriving DecidableEq, Repr

/-- Does a document satisfy a query? -/
def Query.matchesDoc : Query → Document → Bool
  | .qterm f w, d => (tokenize (getField d f)).contains w
  | .qand a b, d => a.matchesDoc d && b.matchesDoc d
  | .qor a b, d => a.matchesDoc d || b.matchesDoc d
  | .qnull, _ => false

/-- Relevance score of a document for a query: number of satisfied term
leaves (a simple, monotone model of whoosh scoring). -/
def Query.scoreDoc : Query → Document → Nat
  | .qterm f w, d => if (tokenize (getField d f)).contains w then 1 else 0
  | .qand a b, d => a.scoreDoc d + b.scoreDoc d
  | .qor a b, d => a.scoreDoc d + b.scoreDoc d
  | .qnull, _ => 0

/-- Python truthiness of a whoosh query object: `NullQuery` is falsy. -/
def Query.truthyQ : Query → Bool
  | .qnull => false
  | _ => true

/-- Fold a nonempty token/field list into a query with `qor`. -/
def orAll : List Query → Query
  | [] => .qnull
  | q :: qs => qs.foldl Query.qor q

/-- Fold with `qand`. -/
def andAll : List Query → Query
  | [] => .qnull
  | q :: qs => qs.foldl Query.qand q

/-- Malformed query syntax in the parser model: an odd number of double
quotes (the unbalanced-quote case) raises `QueryParserError`. -/
def malformedQuery (s : String) : Bool :=
  (s.data.count '"') % 2 == 1

/-- `QueryParser.escape`: neutralise special syntax characters so the string
is parsed as a pure literal match; modelled by blanking quote characters
(the sole failure trigger in this model), which leaves the alphanumeric
tokens unchanged. -/
def escapeQuery (s : String) : String :=
  String.mk (s.data.map (fun c => if c = '"' then ' ' else c))

/-- `MultifieldParser(fields, schema, group=OrGroup).parse(text)`: each token
is searched in every field, all combined with OR; raises on malformed
syntax. -/
def parseMulti (fields : List String) (text : String) : Except String Query :=
  if malformedQuery text then .error "QueryParserError"
  else .ok (orAll ((tokenize text).map (fun t => orAll (fields.map (fun f => Query.qterm f t)))))

/-- `QueryParser(field, schema).parse(text)` with the default `AndGroup`:
tokens AND-ed on a single field; raises on malformed syntax. -/
def parseOne (field : String) (text : String) : Except String Query :=
  if malformedQuery text then .error "QueryParserError"
  else .ok (andAll ((tokenize text).map (fun t => Query.qterm field t)))

/-- `QueryParser(field, schema, group=OrGroup).parse(text)`: tokens OR-ed on
a single field (used for the teacher name field). -/
def parseOneOr (field : String) (text : String) : Except String Query :=
  if malformedQuery text then .error "QueryParserError"
  else .ok (orAll ((tokenize text).map (fun t => Query.qterm field t)))

/-- Python truthiness of an `Optional[str]`: `None` and `""` are falsy. -/
def truthy : Option String → Bool
  | none => false
  | some s => s.length != 0

/-- Python `a or b` on optional strings. -/
def pyOr (a b : Option String) : Option String :=
  if truthy a then a else b

/-! ## Document Writer (`_index_item`, `index_*_item`, `delete_item_from_index`)

Index writes go through whoosh's `writer()`/`commit()`, which can fail with
an I/O error or a lock-contention timeout.  That environmental outcome is an
explicit input of the model (`WriteOutcome`); the functions translate the
`try`/`except` control flow of the source: a failed write is caught, printed
and swallowed, the function returns normally and the index is unchanged
(a whoosh commit is atomic, so an aborted write leaves no partial state). -/

/-- Outcome of the underlying index write (the environment's contribution). -/
inductive WriteOutcome where
  | success : WriteOutcome
  | ioError : String → WriteOutcome
deriving DecidableEq, Repr

/-- `writer.update_document(**document_data)` with a unique field: whoosh
deletes any existing document with the same value in the unique field, then
adds the new document. -/
def upsertDoc (uniqueField : String) (ix : List Document) (d : Document) : List Document :=
  ix.filter (fun old => getField old uniqueField ≠ getField d uniqueField) ++ [d]

/-- `_index_item(index_obj, unique_field_name, unique_field_value, **fields)`:
returns what the caller sees (an `Except` that, per the source's
`try`/`except`, is always `.ok`) together with the index state afterwards. -/
def indexItem (outcome : WriteOutcome) (ix : Option (List Document))
    (uniqueFieldName uniqueFieldValue : String) (fields : List (String × String)) :
    Except String Unit × Option (List Document) :=
  match ix with
  | none => (.ok (), none)
  | some docs =>
    match outcome with
    | .success =>
        (.ok (), some (upsertDoc uniqueFieldName docs (buildDoc uniqueFieldName uniqueFieldValue fields)))
    | .ioError _ => (.ok (), some docs)

/-- `index_course_item(db_id, title, category, level, teacher_name)`. -/
def indexCourseItem (outcome : WriteOutcome) (ix : Option (List Document))
    (dbId : Nat) (title category level : String) (teacherName : Option String) :
    Except String Unit × Option (List Document) :=
  indexItem outcome ix "db_id" (toString dbId)
    [("title", title), ("category", category), ("level", level),
     ("teacher_name", (pyOr teacherName (some "")).getD "")]

/-- `index_material_item(db_id, title, material_type, course_id_ref, course_title_ref)`. -/
def indexMaterialItem (outcome : WriteOutcome) (ix : Option (List Document))
    (dbId : Nat) (title materialType : String) (courseIdRef : Nat) (courseTitleRef : String) :
    Except String Unit × Option (List Document) :=
  indexItem outcome ix "db_id" (toString dbId)
    [("title", title), ("material_type", materialType),
     ("course_id_ref", toString courseIdRef), ("course_title_ref", courseTitleRef)]

/-- `index_teacher_item(db_id, name)`. -/
def indexTeacherItem (outcome : WriteOutcome) (ix : Option (List Document))
    (dbId : Nat) (name : String) : Except String Unit × Option (List Document) :=
  indexItem outcome ix "db_id" (toString dbId) [("name", name)]

/-- `delete_item_from_index(index_obj, db_id)`: `writer.delete_by_term('db_id',
str(db_id))` then commit; exceptions are caught and printed, the function
returns normally. -/
def deleteItem (outcome : WriteOutcome) (ix : Option (List Document)) (dbId : Nat) :
    Except String Unit × Option (List Document) :=
  match ix with
  | none => (.ok (), none)
  | some docs =>
    match outcome with
    | .success => (.ok (), some (docs.filter (fun d => getField d "db_id" ≠ toString dbId)))
    | .ioError _ => (.ok (), some docs)

/-- The index state after a successful `_index_item` write. -/
def runIndexItem (docs : List Document) (uniqueFieldValue : String)
    (fields : List (String × String)) : List Document :=
  ((indexItem .success (some docs) "db_id" uniqueFieldValue fields).snd).getD []

/-- The index state after a successful `delete_item_from_index`. -/
def runDelete (docs : List Document) (dbId : Nat) : List Document :=
  ((deleteItem .success (some docs) dbId).snd).getD []

/-! ## Search (`search_whoosh`) -/

/-- One entry of `all_search_results`: the result dictionary appended for a
hit, with the entity-type tag, the display title, the relevance score and the
type-specific stored fields. -/
structure SearchHit where
  id : String
  title : String
  type : String
  score : Nat
  extra : List (String × String)
deriving DecidableEq, Repr

/-- Insert into a descending-by-key list, keeping it descending (a new
element goes after existing elements of equal key, as a stable sort does). -/
def insertDescBy {α : Type} (key : α → Nat) (a : α) : List α → List α
  | [] => [a]
  | x :: xs => if key x ≤ key a then a :: x :: xs else x :: insertDescBy key a xs

/-- Stable descending insertion sort by a numeric key. -/
def sortDescBy {α : Type} (key : α → Nat) : List α → List α
  | [] => []
  | a :: l => insertDescBy key a (sortDescBy key l)

/-- Descending sort of the merged hit list, modelling
`all_search_results.sort(key=lambda x: x.get("relevance_score", 0), reverse=True)`. -/
def sortHits (l : List SearchHit) : List SearchHit :=
  sortDescBy (fun h => h.score) l

/-- The documents of `ix` matching `q` with their scores, sorted best-first
and cut to `limit`, as whoosh's `searcher.search(q, limit=limit)` yields. -/
def searchIndex (ix : List Document) (q : Query) (limit : Nat) : List (Document × Nat) :=
  (sortDescBy Prod.snd ((ix.filter q.matchesDoc).map (fun d => (d, q.scoreDoc d)))).take limit

/-- The free-text query with the documented fallback: parse the query string;
on a `QueryParserError`, escape the string and re-parse (the `try`/`except`
around `parser.parse(query_str)`).  `none` when there is no query string. -/
def textQueryFor (fields : List String) (queryStr : Option String) :
    Except String (Option Query) :=
  if truthy queryStr then
    let s := queryStr.getD ""
    match parseMulti fields s with
    | .ok q => .ok (some q)
    | .error _ => (parseMulti fields (escapeQuery s)).map some
  else .ok none

/-- `active_filters_courses`: category and level are lowercased and parsed on
their keyword fields, the teacher-name filter on `teacher_name`; a parse
failure here is not inside the fallback `try` and propagates to the branch's
outer `except`. -/
def filtersCourses (filterCategory filterLevel filterTeacherName : Option String) :
    Except String (List Query) := do
  let l1 ← if truthy filterCategory then do
      let q ← parseOne "category" (lowerStr (filterCategory.getD ""))
      pure [q]
    else pure ([] : List Query)
  let l2 ← if truthy filterLevel then do
      let q ← parseOne "level" (lowerStr (filterLevel.getD ""))
      pure [q]
    else pure ([] : List Query)
  let l3 ← if truthy filterTeacherName then do
      let q ← parseOne "teacher_name" (filterTeacherName.getD "")
      pure [q]
    else pure ([] : List Query)
  pure (l1 ++ l2 ++ l3)

/-- `final_query_parts`: the text query (when truthy) followed by the active
filters, combined with `whoosh.query.And` when there is more than one part. -/
def combineParts (textQ : Option Query) (filters : List Query) : Option Query :=
  let parts :=
    (match textQ with
     | some q => if q.truthyQ then [q] else []
     | none => []) ++ filters
  match parts with
  | [] => none
  | [q] => some q
  | q :: qs => some (qs.foldl Query.qand q)

/-- The hit dictionary appended for a course. -/
def courseHitOf (p : Document × Nat) : SearchHit :=
  { id := getField p.fst "db_id", title := getField p.fst "title", type := "course",
    score := p.snd,
    extra := [("category", getField p.fst "category"), ("level", getField p.fst "level"),
              ("teacher_name", getField p.fst "teacher_name")] }

/-- The hit dictionary appended for a material; the display title embeds the
parent course title (`hit.get('course_title_ref', 'N/A')`). -/
def materialHitOf (p : Document × Nat) : SearchHit :=
  { id := getField p.fst "db_id",
    title := getField p.fst "title" ++ " (из курса: " ++ getFieldD p.fst "course_title_ref" "N/A" ++ ")",
    type := "material", score := p.snd,
    extra := [("material_type_field", getField p.fst "material_type")] }

/-- The hit dictionary appended for a teacher. -/
def teacherHitOf (p : Document × Nat) : SearchHit :=
  { id := getField p.fst "db_id", title := getField p.fst "name", type := "teacher",
    score := p.snd, extra := [] }

/-- The courses branch of `search_whoosh`: build the text query over the
`MultifieldParser(["title", "teacher_name"], ..., group=OrGroup)` field set,
collect the active filters, AND everything together and search; when no query
parts exist the search is skipped. -/
def branchCourses (ix : List Document) (queryStr filterCategory filterLevel
    filterTeacherName : Option String) (limit : Nat) : Except String (List SearchHit) := do
  let textQ ← textQueryFor ["title", "teacher_name"] queryStr
  let filters ← filtersCourses filterCategory filterLevel filterTeacherName
  match combineParts textQ filters with
  | none => pure []
  | some q => pure ((searchIndex ix q limit).map courseHitOf)

/-- `active_filters_materials`: the material-type filter, lowercased and
parsed on its keyword field. -/
def filtersMaterials (filterMaterialType : Option String) : Except String (List Query) := do
  if truthy filterMaterialType then do
    let q ← parseOne "material_type" (lowerStr (filterMaterialType.getD ""))
    pure [q]
  else pure ([] : List Query)

/-- The materials branch: text over `["title", "course_title_ref"]`, the
material-type filter lowercased on its keyword field. -/
def branchMaterials (ix : List Document) (queryStr filterMaterialType : Option String)
    (limit : Nat) : Except String (List SearchHit) := do
  let textQ ← textQueryFor ["title", "course_title_ref"] queryStr
  let filters ← filtersMaterials filterMaterialType
  match combineParts textQ filters with
  | none => pure []
  | some q => pure ((searchIndex ix q limit).map materialHitOf)

/-- The teachers branch: `teacher_query_text = filter_teacher_name or
query_str`, parsed on the `name` field with `OrGroup` and the same escape
fallback; skipped when the text is falsy, and skipped when the parsed query
object is falsy (`if final_query_obj_teachers:`). -/
def branchTeachers (ix : List Document) (queryStr filterTeacherName : Option String)
    (limit : Nat) : Except String (List SearchHit) := do
  let teacherQueryText := pyOr filterTeacherName queryStr
  if truthy teacherQueryText then
    let s := teacherQueryText.getD ""
    let q ← match parseOneOr "name" s with
      | .ok q => Except.ok q
      | .error _ => parseOneOr "name" (escapeQuery s)
    if q.truthyQ then pure ((searchIndex ix q limit).map teacherHitOf)
    else pure []
  else pure []

/-- `except Exception` around each per-entity branch: an error is printed and
the branch contributes nothing (in this model errors arise only while the
query is being built, before any result is appended). -/
def orEmpty (e : Except String (List SearchHit)) : List SearchHit :=
  match e with
  | .ok l => l
  | .error _ => []

/-- The three whoosh indexes (module-level `ix_courses`, `ix_materials`,
`ix_teachers`), passed explicitly. -/
structure Indexes where
  courses : List Document
  materials : List Document
  teachers : List Document
deriving DecidableEq, Repr

/-- `search_whoosh(query_str, search_in_courses, search_in_materials,
search_in_teachers, filter_category, filter_level, filter_material_type,
filter_teacher_name, limit)`: run each enabled entity branch with `limit` as
its upper bound, concatenate, sort by score descending and truncate to
`limit`. -/
def searchWhoosh (ixs : Indexes) (queryStr : Option String)
    (searchInCourses searchInMaterials searchInTeachers : Bool)
    (filterCategory filterLevel filterMaterialType filterTeacherName : Option String)
    (limit : Nat) : List SearchHit :=
  let rc := if searchInCourses then
      orEmpty (branchCourses ixs.courses queryStr filterCategory filterLevel filterTeacherName limit)
    else []
  let rm := if searchInMaterials then
      orEmpty (branchMaterials ixs.materials queryStr filterMaterialType limit)
    else []
  let rt := if searchInTeachers then
      orEmpty (branchTeachers ixs.teachers queryStr filterTeacherName limit)
    else []
  (sortHits (rc ++ rm ++ rt)).take limit

/-! ## Call-site interface facts (src/main.py against src/search_service.py)

Python resolves keyword arguments by name at call time; a keyword absent
from the callee's parameter list raises `TypeError`.  These definitions
transcribe the parameter lists of the search-service functions and the
keyword arguments their call sites in `main.py` pass. -/

/-- The parameters of `search_whoosh` (src/search_service.py, lines 109-118). -/
def searchWhooshParamNames : List String :=
  ["query_str", "search_in_courses", "search_in_materials", "search_in_teachers",
   "filter_category", "filter_level", "filter_material_type", "filter_teacher_name",
   "limit"]

/-- The keyword arguments `search_content_api` passes to `search_whoosh`
(src/main.py, lines 488-493). -/
def mainSearchCallKwargs : List String :=
  ["query_str", "search_in_courses", "search_in_materials", "search_in_teachers",
   "filter_category", "filter_level", "filter_tags", "filter_material_type",
   "filter_teacher_name", "limit"]

/-- The parameters of `index_course_item` (src/search_service.py, line 86). -/
def indexCourseItemParamNames : List String :=
  ["db_id", "title", "category", "level", "teacher_name"]

/-- The keyword arguments `create_course_api` passes to `index_course_item`
(src/main.py, lines 354-358; the same set at lines 412-416). -/
def mainIndexCourseKwargs : List String :=
  ["db_id", "title", "category", "level", "teacher_name", "description", "tags"]

/-- A Python call binds cleanly only when every keyword argument names a
parameter of the callee; otherwise the call raises `TypeError`. -/
def pyKwargsAccepted (params kwargs : List String) : Bool :=
  kwargs.all (fun k => params.contains k)

/-- The field set `MultifieldParser` searches for courses
(src/search_service.py, line 137). -/
def courseTextSearchFields : List String := ["title", "teacher_name"]

/-- The number of values the caller unpacks from `search_whoosh`'s return
(`results_from_whoosh, facets_data_raw = search_whoosh(...)`,
src/main.py line 488). -/
def mainSearchUnpackArity : Nat := 2

/-- Whether an `Except` carries a value rather than an error. -/
def exceptOk {ε α : Type} : Except ε α → Bool
  | .ok _ => true
  | .error _ => false

/-! ## Supporting lemmas -/

theorem except_bind_ok {ε α β : Type} (a : α) (f : α → Except ε β) :
    (Except.ok a >>= f : Except ε β) = f a := rfl

theorem except_bind_error {ε α β : Type} (e : ε) (f : α → Except ε β) :
    (Except.error e >>= f : Except ε β) = .error e := rfl

theorem mem_insertDescBy {α : Type} (key : α → Nat) (a x : α) (l : List α) :
    x ∈ insertDescBy key a l ↔ x = a ∨ x ∈ l := by
  induction l with
  | nil => simp [insertDescBy]
  | cons y ys ih =>
    by_cases h : key y ≤ key a
    · simp [insertDescBy, h]
    · simp only [insertDescBy, if_neg h, List.mem_cons, ih]
      tauto

theorem mem_sortDescBy {α : Type} (key : α → Nat) (x : α) (l : List α) :
    x ∈ sortDescBy key l ↔ x ∈ l := by
  induction l with
  | nil => simp [sortDescBy]
  | cons y ys ih => simp [sortDescBy, mem_insertDescBy, ih]

theorem pairwise_insertDescBy {α : Type} (key : α → Nat) (a : α) (l : List α)
    (h : l.Pairwise (fun u v => key v ≤ key u)) :
    (insertDescBy key a l).Pairwise (fun u v => key v ≤ key u) := by
  induction l with
  | nil => simp [insertDescBy]
  | cons y ys ih =>
    rcases List.pairwise_cons.mp h with ⟨hy, hys⟩
    by_cases hk : key y ≤ key a
    · simp only [insertDescBy, if_pos hk]
      refine List.pairwise_cons.mpr ⟨?_, h⟩
      intro z hz
      rcases List.mem_cons.mp hz with rfl | hz
      · exact hk
      · exact le_trans (hy z hz) hk
    · simp only [insertDescBy, if_neg hk]
      refine List.pairwise_cons.mpr ⟨?_, ih hys⟩
      intro z hz
      rcases (mem_insertDescBy key a z ys).mp hz with rfl | hz
      · exact le_of_lt (lt_of_not_le hk)
      · exact hy z hz

theorem pairwise_sortDescBy {α : Type} (key : α → Nat) (l : List α) :
    (sortDescBy key l).Pairwise (fun u v => key v ≤ key u) := by
  induction l with
  | nil => simp [sortDescBy]
  | cons y ys ih => exact pairwise_insertDescBy key y _ ih

theorem searchIndex_length_le (ix : List Document) (q : Query) (limit : Nat) :
    (searchIndex ix q limit).length ≤ limit := by
  simp only [searchIndex, List.length_take]
  exact min_le_left _ _

theorem mem_searchIndex (ix : List Document) (q : Query) (limit : Nat)
    (p : Document × Nat) (h : p ∈ searchIndex ix q limit) : p.fst ∈ ix := by
  have h2 : p ∈ sortDescBy Prod.snd ((ix.filter q.matchesDoc).map (fun d => (d, q.scoreDoc d))) :=
    (List.take_sublist _ _).subset h
  rw [mem_sortDescBy] at h2
  rcases List.mem_map.mp h2 with ⟨d, hd, rfl⟩
  exact (List.mem_filter.mp hd).1

theorem except_pure {ε α : Type} (a : α) : (pure a : Except ε α) = .ok a := rfl

theorem branchCourses_ok (ix : List Document) (qs fc fl ftn : Option String) (limit : Nat)
    (l : List SearchHit) (h : branchCourses ix qs fc fl ftn limit = .ok l) :
    l.length ≤ limit ∧ ∀ x ∈ l, x.type = "course" ∧ ∃ d ∈ ix, x.id = getField d "db_id" := by
  unfold branchCourses at h
  cases htq : textQueryFor ["title", "teacher_name"] qs with
  | error e => rw [htq, except_bind_error] at h; exact absurd h (by simp)
  | ok tq =>
    rw [htq, except_bind_ok] at h
    cases hfs : filtersCourses fc fl ftn with
    | error e => rw [hfs, except_bind_error] at h; exact absurd h (by simp)
    | ok fs =>
      rw [hfs, except_bind_ok] at h
      cases hcp : combineParts tq fs with
      | none =>
        rw [hcp, except_pure] at h
        cases h
        exact ⟨Nat.zero_le _, by simp⟩
      | some q =>
        rw [hcp, except_pure] at h
        cases h
        constructor
        · simpa using searchIndex_length_le ix q limit
        · intro x hx
          rcases List.mem_map.mp hx with ⟨p, hp, rfl⟩
          exact ⟨rfl, p.fst, mem_searchIndex ix q limit p hp, rfl⟩

theorem branchMaterials_ok (ix : List Document) (qs fmt : Option String) (limit : Nat)
    (l : List SearchHit) (h : branchMaterials ix qs fmt limit = .ok l) :
    l.length ≤ limit ∧ ∀ x ∈ l, x.type = "material" ∧ ∃ d ∈ ix, x.id = getField d "db_id" := by
  unfold branchMaterials at h
  cases htq : textQueryFor ["title", "course_title_ref"] qs with
  | error e => rw [htq, except_bind_error] at h; exact absurd h (by simp)
  | ok tq =>
    rw [htq, except_bind_ok] at h
    cases hfs : filtersMaterials fmt with
    | error e => rw [hfs, except_bind_error] at h; exact absurd h (by simp)
    | ok fs =>
      rw [hfs, except_bind_ok] at h
      cases hcp : combineParts tq fs with
      | none =>
        rw [hcp, except_pure] at h
        cases h
        exact ⟨Nat.zero_le _, by simp⟩
      | some q =>
        rw [hcp, except_pure] at h
        cases h
        constructor
        · simpa using searchIndex_length_le ix q limit
        · intro x hx
          rcases List.mem_map.mp hx with ⟨p, hp, rfl⟩
          exact ⟨rfl, p.fst, mem_searchIndex ix q limit p hp, rfl⟩

theorem branchTeachers_ok (ix : List Document) (qs ftn : Option String) (limit : Nat)
    (l : List SearchHit) (h : branchTeachers ix qs ftn limit = .ok l) :
    l.length ≤ limit ∧ ∀ x ∈ l, x.type = "teacher" ∧ ∃ d ∈ ix, x.id = getField d "db_id" := by
  simp only [branchTeachers] at h
  by_cases ht : truthy (pyOr ftn qs)
  · rw [if_pos ht] at h
    cases hp1 : parseOneOr "name" ((pyOr ftn qs).getD "") with
    | ok q =>
      rw [hp1] at h
      simp only [except_bind_ok, except_pure] at h
      by_cases htr : q.truthyQ
      · rw [if_pos htr] at h
        cases h
        constructor
        · simpa using searchIndex_length_le ix q limit
        · intro x hx
          rcases List.mem_map.mp hx with ⟨p, hp, rfl⟩
          exact ⟨rfl, p.fst, mem_searchIndex ix q limit p hp, rfl⟩
      · rw [if_neg htr] at h
        cases h
        exact ⟨Nat.zero_le _, by simp⟩
    | error e =>
      rw [hp1] at h
      cases hp2 : parseOneOr "name" (escapeQuery ((pyOr ftn qs).getD "")) with
      | ok q =>
        rw [hp2] at h
        simp only [except_bind_ok, except_pure] at h
        by_cases htr : q.truthyQ
        · rw [if_pos htr] at h
          cases h
          constructor
          · simpa using searchIndex_length_le ix q limit
          · intro x hx
            rcases List.mem_map.mp hx with ⟨p, hp, rfl⟩
            exact ⟨rfl, p.fst, mem_searchIndex ix q limit p hp, rfl⟩
        · rw [if_neg htr] at h
          cases h
          exact ⟨Nat.zero_le _, by simp⟩
      | error e2 =>
        rw [hp2, except_bind_error] at h
        exact absurd h (by simp)
  · rw [if_neg ht, except_pure] at h
    cases h
    exact ⟨Nat.zero_le _, by simp⟩

/-- Shape of one branch's contribution after the per-branch `except Exception`:
bounded by `limit`, correctly type-tagged, ids drawn from the branch's index. -/
theorem branchCourses_hits (ix : List Document) (qs fc fl ftn : Option String) (limit : Nat) :
    (orEmpty (branchCourses ix qs fc fl ftn limit)).length ≤ limit ∧
    ∀ x ∈ orEmpty (branchCourses ix qs fc fl ftn limit),
      x.type = "course" ∧ ∃ d ∈ ix, x.id = getField d "db_id" := by
  cases h : branchCourses ix qs fc fl ftn limit with
  | error e => simp [orEmpty]
  | ok l =>
    simpa [orEmpty] using branchCourses_ok ix qs fc fl ftn limit l h

theorem branchMaterials_hits (ix : List Document) (qs fmt : Option String) (limit : Nat) :
    (orEmpty (branchMaterials ix qs fmt limit)).length ≤ limit ∧
    ∀ x ∈ orEmpty (branchMaterials ix qs fmt limit),
      x.type = "material" ∧ ∃ d ∈ ix, x.id = getField d "db_id" := by
  cases h : branchMaterials ix qs fmt limit with
  | error e => simp [orEmpty]
  | ok l =>
    simpa [orEmpty] using branchMaterials_ok ix qs fmt limit l h

theorem branchTeachers_hits (ix : List Document) (qs ftn : Option String) (limit : Nat) :
    (orEmpty (branchTeachers ix qs ftn limit)).length ≤ limit ∧
    ∀ x ∈ orEmpty (branchTeachers ix qs ftn limit),
      x.type = "teacher" ∧ ∃ d ∈ ix, x.id = getField d "db_id" := by
  cases h : branchTeachers ix qs ftn limit with
  | error e => simp [orEmpty]
  | ok l =>
    simpa [orEmpty] using branchTeachers_ok ix qs ftn limit l h

theorem mem_searchWhoosh (ixs : Indexes) (qs : Option String) (sic sim sit : Bool)
    (fc fl fmt ftn : Option String) (limit : Nat) (x : SearchHit)
    (h : x ∈ searchWhoosh ixs qs sic sim sit fc fl fmt ftn limit) :
    x ∈ (if sic then orEmpty (branchCourses ixs.courses qs fc fl ftn limit) else []) ++
        (if sim then orEmpty (branchMaterials ixs.materials qs fmt limit) else []) ++
        (if sit then orEmpty (branchTeachers ixs.teachers qs ftn limit) else []) := by
  simp only [searchWhoosh, sortHits] at h
  have h2 := (List.take_sublist _ _).subset h
  rwa [mem_sortDescBy] at h2

theorem searchWhoosh_length_le (ixs : Indexes) (qs : Option String) (sic sim sit : Bool)
    (fc fl fmt ftn : Option String) (limit : Nat) :
    (searchWhoosh ixs qs sic sim sit fc fl fmt ftn limit).length ≤ limit := by
  simp only [searchWhoosh, List.length_take]
  exact min_le_left _ _

theorem searchWhoosh_sorted (ixs : Indexes) (qs : Option String) (sic sim sit : Bool)
    (fc fl fmt ftn : Option String) (limit : Nat) :
    (searchWhoosh ixs qs sic sim sit fc fl fmt ftn limit).Pairwise
      (fun a b => b.score ≤ a.score) := by
  simp only [searchWhoosh, sortHits]
  exact List.Pairwise.sublist (List.take_sublist _ _) (pairwise_sortDescBy _ _)

theorem malformedQuery_escapeQuery (s : String) : malformedQuery (escapeQuery s) = false := by
  have hnot : '"' ∉ (escapeQuery s).data := by
    intro hmem
    rcases List.mem_map.mp hmem with ⟨c, _, hc⟩
    by_cases h : c = '"'
    · simp [h] at hc
    · simp [h] at hc
  have hz : ((escapeQuery s).data.count '"') = 0 := List.count_eq_zero.mpr hnot
  simp [malformedQuery, hz]

theorem length_escapeQuery (s : String) : (escapeQuery s).length = s.length :=
  List.length_map _ _

theorem malformedQuery_nonempty (s : String) (h : malformedQuery s = true) :
    truthy (some s) = true := by
  cases hd : s.data with
  | nil => rw [malformedQuery, hd] at h; simp at h
  | cons c cs =>
    simp only [truthy, String.length, hd]
    simp

theorem truthy_escapeQuery (s : String) : truthy (some (escapeQuery s)) = truthy (some s) := by
  simp [truthy, length_escapeQuery]

theorem textQueryFor_escape (fields : List String) (s : String)
    (h : malformedQuery s = true) :
    textQueryFor fields (some s) = textQueryFor fields (some (escapeQuery s)) := by
  have ht := malformedQuery_nonempty s h
  have hte : truthy (some (escapeQuery s)) = true := (truthy_escapeQuery s).trans ht
  simp only [textQueryFor, ht, hte, if_pos, Option.getD_some]
  rw [show parseMulti fields s = .error "QueryParserError" by simp [parseMulti, h]]
  rw [show parseMulti fields (escapeQuery s)
        = .ok (orAll ((tokenize (escapeQuery s)).map
            (fun t => orAll (fields.map (fun f => Query.qterm f t)))))
      by simp [parseMulti, malformedQuery_escapeQuery s]]
  rfl

theorem parseOneOr_ok (field : String) (s : String) (h : malformedQuery s = false) :
    parseOneOr field s
      = .ok (orAll ((tokenize s).map (fun t => Query.qterm field t))) := by
  simp [parseOneOr, h]

theorem textQueryFor_ok (fields : List String) (qs : Option String) :
    exceptOk (textQueryFor fields qs) = true := by
  by_cases ht : truthy qs
  · simp only [textQueryFor, ht, if_pos]
    cases hp : parseMulti fields (qs.getD "") with
    | ok q => simp [exceptOk]
    | error e =>
      have : malformedQuery (escapeQuery (qs.getD "")) = false := malformedQuery_escapeQuery _
      simp [parseMulti, this, exceptOk, Except.map]
  · simp [textQueryFor, ht, exceptOk]

theorem branchCourses_escape (ix : List Document) (fc fl ftn : Option String)
    (s : String) (limit : Nat) (h : malformedQuery s = true) :
    branchCourses ix (some s) fc fl ftn limit
      = branchCourses ix (some (escapeQuery s)) fc fl ftn limit := by
  unfold branchCourses
  rw [textQueryFor_escape ["title", "teacher_name"] s h]

theorem branchMaterials_escape (ix : List Document) (fmt : Option String)
    (s : String) (limit : Nat) (h : malformedQuery s = true) :
    branchMaterials ix (some s) fmt limit
      = branchMaterials ix (some (escapeQuery s)) fmt limit := by
  unfold branchMaterials
  rw [textQueryFor_escape ["title", "course_title_ref"] s h]

theorem branchTeachers_escape (ix : List Document) (ftn : Option String)
    (s : String) (limit : Nat) (h : malformedQuery s = true) :
    branchTeachers ix (some s) ftn limit
      = branchTeachers ix (some (escapeQuery s)) ftn limit := by
  by_cases hft : truthy ftn
  · simp only [branchTeachers, pyOr, hft, if_pos]
  · have h1 : truthy (some s) = true := malformedQuery_nonempty s h
    have h2 : truthy (some (escapeQuery s)) = true := (truthy_escapeQuery s).trans h1
    have hps : pyOr ftn (some s) = some s := by simp [pyOr, hft]
    have hpe : pyOr ftn (some (escapeQuery s)) = some (escapeQuery s) := by
      simp [pyOr, hft]
    simp only [branchTeachers, hps, hpe, Option.getD_some, h1, h2, if_true]
    rw [show parseOneOr "name" s = Except.error "QueryParserError" by simp [parseOneOr, h]]
    rw [parseOneOr_ok "name" (escapeQuery s) (malformedQuery_escapeQuery s)]

theorem searchWhoosh_escape (ixs : Indexes) (s : String) (sic sim sit : Bool)
    (fc fl fmt ftn : Option String) (limit : Nat) (h : malformedQuery s = true) :
    searchWhoosh ixs (some s) sic sim sit fc fl fmt ftn limit
      = searchWhoosh ixs (some (escapeQuery s)) sic sim sit fc fl fmt ftn limit := by
  simp only [searchWhoosh]
  rw [branchCourses_escape ixs.courses fc fl ftn s limit h,
    branchMaterials_escape ixs.materials fmt s limit h,
    branchTeachers_escape ixs.teachers ftn s limit h]

theorem branchTeachers_filter_pref (t : List Document) (qs : Option String) (s : String)
    (limit : Nat) (h : truthy (some s) = true) :
    branchTeachers t qs (some s) limit = branchTeachers t none (some s) limit := by
  simp only [branchTeachers, pyOr, h, if_pos]

theorem branchCourses_empty_ix (qs fc fl ftn : Option String) (limit : Nat) :
    orEmpty (branchCourses [] qs fc fl ftn limit) = [] := by
  rcases (branchCourses_hits [] qs fc fl ftn limit).2 with hmem
  apply List.eq_nil_iff_forall_not_mem.mpr
  intro x hx
  rcases (hmem x hx).2 with ⟨d, hd, _⟩
  exact absurd hd (List.not_mem_nil d)

theorem branchMaterials_empty_ix (qs fmt : Option String) (limit : Nat) :
    orEmpty (branchMaterials [] qs fmt limit) = [] := by
  rcases (branchMaterials_hits [] qs fmt limit).2 with hmem
  apply List.eq_nil_iff_forall_not_mem.mpr
  intro x hx
  rcases (hmem x hx).2 with ⟨d, hd, _⟩
  exact absurd hd (List.not_mem_nil d)

theorem getField_dictInsert_ne (d : Document) (kv : String × String) (k : String)
    (h : kv.fst ≠ k) : getField (dictInsert d kv) k = getField d k := by
  induction d with
  | nil =>
    have hkv : (kv.1 == k) = false := by simpa using h
    simp [getField, dictInsert, List.find?, hkv]
  | cons p ps ih =>
    by_cases hp : p.fst = kv.fst
    · have hpk : (p.fst == k) = false := by
        rw [hp]; simpa using h
      simp only [getField, dictInsert, List.filter_cons] at ih ⊢
      rw [if_neg (by simpa using hp)]
      rw [show ((p :: ps).find? fun q => q.fst == k) = ps.find? fun q => q.fst == k by
        simp [List.find?, hpk]]
      exact ih
    · simp only [getField, dictInsert, List.filter_cons] at ih ⊢
      rw [if_pos (by simpa using hp)]
      by_cases hpk : p.fst = k
      · simp [List.find?, hpk]
      · rw [show ((p :: (ps.filter fun q => q.fst ≠ kv.fst) ++ [kv]).find? fun q => q.fst == k)
              = ((ps.filter fun q => q.fst ≠ kv.fst) ++ [kv]).find? fun q => q.fst == k by
          simp [List.find?_cons, hpk]]
        rw [show ((p :: ps).find? fun q => q.fst == k) = ps.find? fun q => q.fst == k by
          simp [List.find?_cons, hpk]]
        exact ih

theorem getField_foldl_dictInsert (k v : String) :
    ∀ (fs : List (String × String)) (d : Document), (∀ kv ∈ fs, kv.fst ≠ k) →
      getField d k = v → getField (fs.foldl dictInsert d) k = v := by
  intro fs
  induction fs with
  | nil => intro d _ hd; simpa using hd
  | cons kv fs ih =>
    intro d h hd
    have h1 : kv.fst ≠ k := h kv (List.mem_cons_self kv fs)
    have h2 : ∀ x ∈ fs, x.fst ≠ k := fun x hx => h x (List.mem_cons_of_mem _ hx)
    simp only [List.foldl_cons]
    exact ih (dictInsert d kv) h2 ((getField_dictInsert_ne d kv k h1).trans hd)

theorem getField_buildDoc (k v : String) (fs : List (String × String))
    (h : ∀ kv ∈ fs, kv.fst ≠ k) : getField (buildDoc k v fs) k = v := by
  unfold buildDoc
  exact getField_foldl_dictInsert k v fs [(k, v)] h (by simp [getField, List.find?])

theorem filter_upsertDoc (key : String) (ix : List Document) (d : Document) :
    (upsertDoc key ix d).filter (fun x => getField x key == getField d key) = [d] := by
  unfold upsertDoc
  rw [List.filter_append]
  have h1 : (ix.filter (fun old => getField old key ≠ getField d key)).filter
      (fun x => getField x key == getField d key) = [] := by
    apply List.filter_eq_nil_iff.mpr
    intro x hx
    have hne := (List.mem_filter.mp hx).2
    simp only [decide_eq_true_eq] at hne
    simpa using hne
  rw [h1]
  simp [List.filter]

theorem mem_runDelete (docs : List Document) (i : Nat) (d : Document)
    (h : d ∈ runDelete docs i) : getField d "db_id" ≠ toString i := by
  simp only [runDelete, deleteItem, Option.getD] at h
  have := (List.mem_filter.mp h).2
  simpa using this

/-! ## Claims -/

/-- Claim C1.  The spec's read contract — search returns both the ranked hit
list and a computed facets structure — does not hold of the code as it
stands: `search_whoosh` does not accept the `filter_tags` keyword its only
caller passes (so every API search raises `TypeError` before any facets
could be produced), and the function's return value is a single flat list of
hit dictionaries containing no facet counts, while the caller unpacks two
values (`results, facets`) from it. -/
theorem claim1_search_returns_no_facets :
    pyKwargsAccepted searchWhooshParamNames mainSearchCallKwargs = false ∧
    mainSearchUnpackArity = 2 ∧
    searchWhoosh ⟨[[("db_id", "1"), ("title", "Python Basics"), ("category", "programming"),
        ("level", "beginner"), ("teacher_name", "Bob")]], [], []⟩
        (some "python") true true true none none none none 20
      = [{ id := "1", title := "Python Basics", type := "course", score := 1,
           extra := [("category", "programming"), ("level", "beginner"),
                     ("teacher_name", "Bob")] }] := by
  refine ⟨by decide, rfl, by decide⟩

/-- Claim C2.  The spec's course free-text field set (title, description,
teacherName, tags, category, level) does not hold of the code as it stands:
the course parser covers only `title` and `teacher_name`, the course schema
carries no description or tags field, `index_course_item` rejects the
`description`/`tags` keywords its caller passes, and a query term present
only in a course's category field matches nothing. -/
theorem claim2_course_query_fields_reduced :
    courseTextSearchFields.contains "category" = false ∧
    courseTextSearchFields.contains "level" = false ∧
    courseTextSearchFields.contains "description" = false ∧
    courseTextSearchFields.contains "tags" = false ∧
    pyKwargsAccepted indexCourseItemParamNames mainIndexCourseKwargs = false ∧
    searchWhoosh ⟨[[("db_id", "1"), ("title", "Intro Course"), ("category", "python"),
        ("level", "beginner"), ("teacher_name", "Bob")]], [], []⟩
        (some "python") true true true none none none none 20 = [] := by
  refine ⟨by decide, by decide, by decide, by decide, by decide, by decide⟩

/-- Claim C3.  Tag-filter semantics do not exist in the code as it stands:
the caller passes a `filter_tags` keyword that `search_whoosh` does not
declare, so the call raises `TypeError` and no OR-of-tags clause is ever
built. -/
theorem claim3_no_tag_filter_parameter :
    mainSearchCallKwargs.contains "filter_tags" = true ∧
    searchWhooshParamNames.contains "filter_tags" = false := by
  refine ⟨by decide, by decide⟩

/-- Claim C4 counterexample.  A failing index write is not surfaced to the
caller: with the underlying commit failing, `_index_item` still returns
normally (`.ok ()`) and leaves the index unchanged — the error is swallowed
inside the Document Writer, contradicting the claim as stated. -/
theorem claim4_counterexample_error_swallowed :
    indexItem (.ioError "disk full") (some [[("db_id", "7"), ("title", "Algo")]])
      "db_id" "7" [("title", "Algorithms II")]
      = (.ok (), some [[("db_id", "7"), ("title", "Algo")]]) := rfl

/-- Claim C4 as amended: when an index write or delete fails, the Document
Writer catches the exception and only logs it — the caller always receives a
normal return, the index is left unchanged on failure, and there is no
internal retry (the one commit outcome is consumed once). -/
theorem claim4_amended_write_errors_swallowed (o : WriteOutcome)
    (ix : Option (List Document)) (k v : String) (fs : List (String × String))
    (i : Nat) (msg : String) :
    (indexItem o ix k v fs).fst = .ok () ∧
    (deleteItem o ix i).fst = .ok () ∧
    (indexItem (.ioError msg) ix k v fs).snd = ix ∧
    (deleteItem (.ioError msg) ix i).snd = ix := by
  cases ix <;> cases o <;> exact ⟨rfl, rfl, rfl, rfl⟩

/-- Claim C5.  Malformed free text never raises: a query string that fails to
parse is escaped and re-parsed as a pure literal match, so searching the
malformed string gives exactly the result of searching its escaped form, and
the text-query builder never produces an error for any query string. -/
theorem claim5_malformed_query_falls_back (ixs : Indexes) (s : String)
    (sic sim sit : Bool) (fc fl fmt ftn : Option String) (limit : Nat)
    (fields : List String) (h : malformedQuery s = true) :
    searchWhoosh ixs (some s) sic sim sit fc fl fmt ftn limit
      = searchWhoosh ixs (some (escapeQuery s)) sic sim sit fc fl fmt ftn limit ∧
    exceptOk (textQueryFor fields (some s)) = true :=
  ⟨searchWhoosh_escape ixs s sic sim sit fc fl fmt ftn limit h,
   textQueryFor_ok fields (some s)⟩

/-- Claim C5 witness: the unbalanced-quote query against a populated index. -/
theorem claim5_witness :
    searchWhoosh ⟨[[("db_id", "1"), ("title", "Python Basics"), ("category", "programming"),
        ("level", "beginner"), ("teacher_name", "Bob")]], [], []⟩
        (some "\"python") true true true none none none none 20
      = searchWhoosh ⟨[[("db_id", "1"), ("title", "Python Basics"),
        ("category", "programming"), ("level", "beginner"), ("teacher_name", "Bob")]], [], []⟩
        (some (escapeQuery "\"python")) true true true none none none none 20 ∧
    exceptOk (textQueryFor ["title", "teacher_name"] (some "\"python")) = true :=
  claim5_malformed_query_falls_back
    ⟨[[("db_id", "1"), ("title", "Python Basics"), ("category", "programming"),
       ("level", "beginner"), ("teacher_name", "Bob")]], [], []⟩
    "\"python" true true true none none none none 20 ["title", "teacher_name"] (by decide)

/-- Claim C6.  At most one document per id: an upsert through `_index_item`
replaces any existing document with the same `db_id`, so after upserting the
same id twice with two field sets, the documents under that id are exactly
one, carrying the latest field values; the write reports success. -/
theorem claim6_upsert_replaces (docs : List Document) (v : String)
    (fs1 fs2 : List (String × String)) (h : ∀ kv ∈ fs2, kv.fst ≠ "db_id") :
    (runIndexItem (runIndexItem docs v fs1) v fs2).filter
        (fun d => getField d "db_id" == v)
      = [buildDoc "db_id" v fs2] ∧
    (indexItem .success (some (runIndexItem docs v fs1)) "db_id" v fs2).fst = .ok () := by
  constructor
  · have hb : getField (buildDoc "db_id" v fs2) "db_id" = v := getField_buildDoc _ _ _ h
    have hpred : (fun d => getField d "db_id" == v)
        = (fun d => getField d "db_id" == getField (buildDoc "db_id" v fs2) "db_id") := by
      rw [hb]
    rw [hpred]
    exact filter_upsertDoc "db_id" (runIndexItem docs v fs1) (buildDoc "db_id" v fs2)
  · rfl

/-- Claim C6 witness: id "7" upserted twice, latest values survive alone. -/
theorem claim6_witness :
    (runIndexItem (runIndexItem [] "7" [("title", "Old")]) "7" [("title", "New")]).filter
        (fun d => getField d "db_id" == "7")
      = [buildDoc "db_id" "7" [("title", "New")]] ∧
    (indexItem .success (some (runIndexItem [] "7" [("title", "Old")])) "db_id" "7"
        [("title", "New")]).fst = .ok () :=
  claim6_upsert_replaces [] "7" [("title", "Old")] [("title", "New")] (by decide)

/-- Claim C7.  Merge and rank: the merged output holds at most `limit` hits,
is sorted descending by relevance score, and consists only of hits of the
enabled per-entity branches; each branch is bounded by `limit` on its own and
tags its hits with its entity type. -/
theorem claim7_merge_sort_truncate (ixs : Indexes) (qs : Option String)
    (sic sim sit : Bool) (fc fl fmt ftn : Option String) (limit : Nat) :
    (searchWhoosh ixs qs sic sim sit fc fl fmt ftn limit).length ≤ limit ∧
    (searchWhoosh ixs qs sic sim sit fc fl fmt ftn limit).Pairwise
      (fun a b => b.score ≤ a.score) ∧
    (∀ x ∈ searchWhoosh ixs qs sic sim sit fc fl fmt ftn limit,
      x ∈ (if sic then orEmpty (branchCourses ixs.courses qs fc fl ftn limit) else []) ++
          (if sim then orEmpty (branchMaterials ixs.materials qs fmt limit) else []) ++
          (if sit then orEmpty (branchTeachers ixs.teachers qs ftn limit) else [])) ∧
    (orEmpty (branchCourses ixs.courses qs fc fl ftn limit)).length ≤ limit ∧
    (orEmpty (branchMaterials ixs.materials qs fmt limit)).length ≤ limit ∧
    (orEmpty (branchTeachers ixs.teachers qs ftn limit)).length ≤ limit ∧
    (∀ x ∈ orEmpty (branchCourses ixs.courses qs fc fl ftn limit), x.type = "course") ∧
    (∀ x ∈ orEmpty (branchMaterials ixs.materials qs fmt limit), x.type = "material") ∧
    (∀ x ∈ orEmpty (branchTeachers ixs.teachers qs ftn limit), x.type = "teacher") :=
  ⟨searchWhoosh_length_le ixs qs sic sim sit fc fl fmt ftn limit,
   searchWhoosh_sorted ixs qs sic sim sit fc fl fmt ftn limit,
   fun x hx => mem_searchWhoosh ixs qs sic sim sit fc fl fmt ftn limit x hx,
   (branchCourses_hits ixs.courses qs fc fl ftn limit).1,
   (branchMaterials_hits ixs.materials qs fmt limit).1,
   (branchTeachers_hits ixs.teachers qs ftn limit).1,
   fun x hx => ((branchCourses_hits ixs.courses qs fc fl ftn limit).2 x hx).1,
   fun x hx => ((branchMaterials_hits ixs.materials qs fmt limit).2 x hx).1,
   fun x hx => ((branchTeachers_hits ixs.teachers qs ftn limit).2 x hx).1⟩

/-- Claim C8.  Delete removes visibility and deleting a missing id is a
harmless no-op: after deleting `dbId` from the courses index, no course hit
of any subsequent search carries that id; the delete reports success; and on
an index holding no document with the target id, the delete returns success
with the index exactly as it was. -/
theorem claim8_delete_semantics (courses materials teachers courses2 : List Document)
    (dbId dbId2 : Nat) (qs fc fl fmt ftn : Option String) (sic sim sit : Bool)
    (limit : Nat)
    (habsent : ∀ d ∈ courses2, getField d "db_id" ≠ toString dbId2) :
    (∀ x ∈ searchWhoosh ⟨runDelete courses dbId, materials, teachers⟩ qs sic sim sit
        fc fl fmt ftn limit, x.type = "course" → x.id ≠ toString dbId) ∧
    (deleteItem .success (some courses) dbId).fst = .ok () ∧
    deleteItem .success (some courses2) dbId2 = (.ok (), some courses2) := by
  refine ⟨?_, rfl, ?_⟩
  · intro x hx htype
    have hmem := mem_searchWhoosh ⟨runDelete courses dbId, materials, teachers⟩ qs sic sim
      sit fc fl fmt ftn limit x hx
    rcases List.mem_append.mp hmem with hcm | ht
    · rcases List.mem_append.mp hcm with hc | hm
      · by_cases hsic : sic
        · rw [if_pos hsic] at hc
          rcases ((branchCourses_hits _ qs fc fl ftn limit).2 x hc).2 with ⟨d, hd, hid⟩
          rw [hid]
          exact mem_runDelete courses dbId d hd
        · rw [if_neg hsic] at hc
          exact absurd hc (List.not_mem_nil x)
      · by_cases hsim : sim
        · rw [if_pos hsim] at hm
          have hty := ((branchMaterials_hits _ qs fmt limit).2 x hm).1
          rw [htype] at hty
          exact absurd hty (by decide)
        · rw [if_neg hsim] at hm
          exact absurd hm (List.not_mem_nil x)
    · by_cases hsit : sit
      · rw [if_pos hsit] at ht
        have hty := ((branchTeachers_hits _ qs ftn limit).2 x ht).1
        rw [htype] at hty
        exact absurd hty (by decide)
      · rw [if_neg hsit] at ht
        exact absurd ht (List.not_mem_nil x)
  · have hf : courses2.filter (fun d => getField d "db_id" ≠ toString dbId2) = courses2 := by
      apply List.filter_eq_self.mpr
      intro a ha
      exact decide_eq_true (habsent a ha)
    show ((.ok (), some (courses2.filter (fun d => getField d "db_id" ≠ toString dbId2))) :
        Except String Unit × Option (List Document)) = (.ok (), some courses2)
    rw [hf]

/-- Claim C8 witness: a matching course disappears after its delete, and
deleting id 2 from an index that only holds id 1 changes nothing. -/
theorem claim8_witness :
    (∀ x ∈ searchWhoosh ⟨runDelete [[("db_id", "1"), ("title", "Python Basics")]] 1,
        [], []⟩ (some "python") true true true none none none none 20,
      x.type = "course" → x.id ≠ toString 1) ∧
    (deleteItem .success (some [[("db_id", "1"), ("title", "Python Basics")]]) 1).fst
      = .ok () ∧
    deleteItem .success (some [[("db_id", "1"), ("title", "Python Basics")]]) 2
      = (.ok (), some [[("db_id", "1"), ("title", "Python Basics")]]) :=
  claim8_delete_semantics [[("db_id", "1"), ("title", "Python Basics")]] [] []
    [[("db_id", "1"), ("title", "Python Basics")]] 1 2 (some "python") none none none none
    true true true 20 (by decide)

/-- Claim C9.  With no query string and no structured filters, every
per-entity branch builds no query parts and is skipped, and the merged
result is the empty list — for any index contents, enabled flags and
limit. -/
theorem claim9_no_query_no_filters_empty (ixs : Indexes) (sic sim sit : Bool)
    (limit : Nat) :
    branchCourses ixs.courses none none none none limit = .ok [] ∧
    branchMaterials ixs.materials none none limit = .ok [] ∧
    branchTeachers ixs.teachers none none limit = .ok [] ∧
    searchWhoosh ixs none sic sim sit none none none none limit = [] := by
  refine ⟨rfl, rfl, rfl, ?_⟩
  simp only [searchWhoosh]
  cases sic <;> cases sim <;> cases sit <;>
    simp [orEmpty, sortHits, sortDescBy,
      show branchCourses ixs.courses none none none none limit = .ok [] from rfl,
      show branchMaterials ixs.materials none none limit = .ok [] from rfl,
      show branchTeachers ixs.teachers none none limit = .ok [] from rfl]

/-- Claim C10.  The teacher-name filter doubles as the teacher query:
`filter_teacher_name or query_str` prefers the filter, so the teacher branch
is independent of the free-text query whenever the filter is set, and with no
free-text query at all the merged output is exactly the teacher-name search
results (the other indexes here empty). -/
theorem claim10_teacher_filter_is_query (t : List Document) (limit : Nat)
    (qs : Option String) (s : String) (h : truthy (some s) = true) :
    branchTeachers t qs (some s) limit = branchTeachers t none (some s) limit ∧
    searchWhoosh ⟨[], [], t⟩ none true true true none none none (some s) limit
      = (sortHits (orEmpty (branchTeachers t none (some s) limit))).take limit := by
  refine ⟨branchTeachers_filter_pref t qs s limit h, ?_⟩
  simp only [searchWhoosh, if_pos]
  rw [branchCourses_empty_ix none none none (some s) limit,
    branchMaterials_empty_ix none none limit]
  simp

/-- Claim C10 witness: a teacher found through the name filter alone. -/
theorem claim10_witness :
    branchTeachers [[("db_id", "5"), ("name", "Ivan Petrov")]] (some "unrelated")
        (some "petrov") 10
      = branchTeachers [[("db_id", "5"), ("name", "Ivan Petrov")]] none (some "petrov") 10 ∧
    searchWhoosh ⟨[], [], [[("db_id", "5"), ("name", "Ivan Petrov")]]⟩ none true true true
        none none none (some "petrov") 10
      = (sortHits (orEmpty (branchTeachers [[("db_id", "5"), ("name", "Ivan Petrov")]]
          none (some "petrov") 10))).take 10 :=
  claim10_teacher_filter_is_query [[("db_id", "5"), ("name", "Ivan Petrov")]] 10
    (some "unrelated") "petrov" (by decide)

end EduSearch
